import Mathlib

/-!
# Resource settings adapter (`google/resource_resource_settings.go`)

A shallow embedding of the Terraform resource that maps a Google Cloud
"resource setting" onto create / read / update / delete.

Conventions of the embedding:

* Go strings are Lean `String`s.  The only byte the code inspects is `/`, which
  is a single byte in UTF-8 and never occurs inside a multi-byte sequence, so
  splitting on the character and splitting on the byte agree.
* `*schema.ResourceData` is passed and returned explicitly (`ResourceData`).
* The remote service is not part of the repository: its replies are supplied by
  the environment (`Env.Do`), as a function of the calls issued so far and of
  the call being made.  Every call the code issues is appended to a log.
* A nil-pointer dereference ends an operation with `Ret.panic`.
-/

namespace ResourceSettings

set_option linter.unusedVariables false

/-! ## Strings -/

/-- Segments of a character sequence cut at every occurrence of `sep`
(`strings.Split` with a one-byte separator): a sequence without `sep` is its
own single segment, and the empty sequence yields one empty segment. -/
def splitChars (sep : Char) : List Char → List (List Char)
  | [] => [[]]
  | c :: cs =>
    if c = sep then [] :: splitChars sep cs
    else
      match splitChars sep cs with
      | [] => [[c]]
      | seg :: rest => (c :: seg) :: rest

/-- Go `strings.Split(s, "/")`. -/
def stringsSplitSlash (s : String) : List String :=
  (splitChars '/' s.data).map String.mk

/-- Source lines 90-92: `fmt.Sprintf("%ss/%s/settings/%s", parentType, parentIdentifier, settingName)`. -/
def resourceSettingsFullName (parentType parentIdentifier settingName : String) : String :=
  parentType ++ "s/" ++ parentIdentifier ++ "/settings/" ++ settingName

/-- Source lines 94-97: `split := strings.Split(fullName, "/"); return split[len(split)-1]`.
The index is always in range (`shortName_index_in_range`), so the default of
`getD` is never used. -/
def resourceSettingsShortName (fullName : String) : String :=
  let split := stringsSplitSlash fullName
  split.getD (split.length - 1) ""

/-- Source lines 99-101: `parentType + "_id"`. -/
def resourceSettingsParentKey (parentType : String) : String :=
  parentType ++ "_id"

/-! ## Errors -/

/-- A Go `error` value: its message (`err.Error()`) and whether it is the remote
service's not-found reply (a `googleapi.Error` carrying HTTP code 404). -/
structure GoError where
  msg : String
  notFound : Bool
deriving DecidableEq

/-- The call `fmt.Errorf(text ++ "%s", err)`: a fresh error value whose message is
`text` followed by `err.Error()`.  The verb is `%s`, not `%w`, so the result
does not wrap `err` and is not itself a remote not-found error. -/
def fmtErrorf (text : String) (err : GoError) : GoError :=
  { msg := text ++ err.msg, notFound := false }

/-- What an operation hands back to its caller: `nil`, an error, or a run-time
panic (nil-pointer dereference). -/
inductive Ret where
  | nil
  | err (e : GoError)
  | panic
deriving DecidableEq

/-! ## Types of the generated API client (`resourcesettings/v1`)

Only the fields the adapter reads or writes are kept; the remaining ones
(`StringSetValue`, `StringMapValue`, `EffectiveValue`, `Etag`) are never
touched, so they stay at their zero value in every body that is sent. -/

/-- The Go struct `GoogleCloudResourcesettingsV1ValueEnumValue`. -/
structure GoogleCloudResourcesettingsV1ValueEnumValue where
  Value : String
deriving DecidableEq

/-- The Go struct `GoogleCloudResourcesettingsV1Value`: plain fields hold their Go
zero value when unset, `EnumValue` is a pointer (`none` is `nil`). -/
structure GoogleCloudResourcesettingsV1Value where
  BooleanValue : Bool
  DurationValue : String
  EnumValue : Option GoogleCloudResourcesettingsV1ValueEnumValue
  StringValue : String
deriving DecidableEq

/-- The Go struct `GoogleCloudResourcesettingsV1SettingMetadata`. -/
structure GoogleCloudResourcesettingsV1SettingMetadata where
  DataType : String
deriving DecidableEq

/-- The Go struct `GoogleCloudResourcesettingsV1Setting`; `LocalValue` and
`Metadata` are pointers. -/
structure GoogleCloudResourcesettingsV1Setting where
  LocalValue : Option GoogleCloudResourcesettingsV1Value
  Metadata : Option GoogleCloudResourcesettingsV1SettingMetadata
  Name : String
deriving DecidableEq

/-- A request sent to the remote service, with the user agent of the client
that sends it: `Settings.Get(name).View(view).Do()` or
`Settings.Patch(name, body).Do()`. -/
inductive Call where
  | Get (userAgent name view : String)
  | Patch (userAgent name : String) (body : GoogleCloudResourcesettingsV1Setting)
deriving DecidableEq

/-! ## Resource data (`*schema.ResourceData`) -/

/-- One element of the `local_value` list, a `map[string]interface{}` over the
four keys of the schema (source lines 55-82); `none` is an absent key. -/
structure LocalValueBlock where
  boolean_value : Option Bool
  string_value : Option String
  enum_value : Option String
  duration_value : Option String
deriving DecidableEq

/-- The resource as the framework holds it: its id, its top-level string
attributes by key (`setting_name` and the parent key), and the `local_value`
list. -/
structure ResourceData where
  id : String
  attrs : String → String
  local_value : List LocalValueBlock

/-- The accessor `d.Id()`. -/
def ResourceData.Id (d : ResourceData) : String := d.id

/-- The setter `d.SetId(v)`; the empty id marks the resource as absent. -/
def ResourceData.SetId (d : ResourceData) (v : String) : ResourceData :=
  { d with id := v }

/-- The lookup `d.Get(key).(string)` on a top-level string attribute. -/
def ResourceData.Get (d : ResourceData) (key : String) : String := d.attrs key

/-- The setter `d.Set(key, value)` on a top-level string attribute; it cannot fail
for a string written to a string attribute. -/
def ResourceData.Set (d : ResourceData) (key value : String) : ResourceData :=
  { d with attrs := fun k => if k = key then value else d.attrs k }

/-- The setter `d.Set("local_value", v)`; it cannot fail for blocks whose values
have the types of the schema. -/
def ResourceData.SetLocalValue (d : ResourceData) (v : List LocalValueBlock) : ResourceData :=
  { d with local_value := v }

/-- The block without any key, `map[string]interface{}{}`. -/
def emptyBlock : LocalValueBlock :=
  { boolean_value := none, string_value := none, enum_value := none, duration_value := none }

/-- The block addressed by `local_value.0`; every key of a missing block is absent. -/
def ResourceData.block0 (d : ResourceData) : LocalValueBlock :=
  d.local_value.headD emptyBlock

/-- The lookup `d.GetOk(key)` on a boolean key: the value (the zero value `false` when
absent) and whether it differs from the zero value. -/
def getOkBool (o : Option Bool) : Bool × Bool :=
  let v := o.getD false
  (v, v != false)

/-- The lookup `d.GetOk(key)` on a string key: the value (the zero value `""` when
absent) and whether it differs from the zero value. -/
def getOkString (o : Option String) : String × Bool :=
  let v := o.getD ""
  (v, v != "")

/-! ## Environment -/

/-- Everything the adapter receives from outside the two source files.

* `meta` is always the provider's `*Config`, so the assertion `meta.(*Config)`
  succeeds; `userAgent` is `config.userAgent`.
* `generateUserAgentString` is the helper of that name; it may fail.
* `Do` is the remote service: the reply to a call, given the calls issued before.
* `wrapReadError` is the context `handleNotFoundError` puts around an error that
  is not a not-found. -/
structure Env where
  userAgent : String
  generateUserAgentString : ResourceData → String → Except GoError String
  Do : List Call → Call → Except GoError GoogleCloudResourcesettingsV1Setting
  wrapReadError : String → GoError → GoError

/-- The result of an operation: the resource data it leaves, the log of remote
calls extended by the ones it issued, and what it returns. -/
structure Outcome where
  d : ResourceData
  calls : List Call
  ret : Ret

/-- Modelled from the spec: `handleNotFoundError` is a helper of this repository
whose source is not among the files at hand.  A not-found error is translated to
"resource absent" (the id is cleared) and no error reaches the caller; any
other error is surfaced to the caller, under the context the environment
supplies. -/
def handleNotFoundError (env : Env) (err : GoError) (d : ResourceData) (resource : String) :
    ResourceData × Ret :=
  if err.notFound then (d.SetId "", Ret.nil)
  else (d, Ret.err (env.wrapReadError resource err))

/-! ## The operations -/

/-- The zero value `&GoogleCloudResourcesettingsV1Value{}` (source line 221). -/
def zeroValue : GoogleCloudResourcesettingsV1Value :=
  { BooleanValue := false, DurationValue := "", EnumValue := none, StringValue := "" }

/-- Source lines 221-230 of `patchResourceSetting`: the value built from the
configuration when `unset` is false, by the chain of `GetOk` lookups. -/
def patchLocalValue (d : ResourceData) : GoogleCloudResourcesettingsV1Value :=
  let localValue := zeroValue
  if (getOkBool d.block0.boolean_value).2 then
    { localValue with BooleanValue := (getOkBool d.block0.boolean_value).1 }
  else if (getOkString d.block0.string_value).2 then
    { localValue with StringValue := (getOkString d.block0.string_value).1 }
  else if (getOkString d.block0.enum_value).2 then
    { localValue with EnumValue := some { Value := (getOkString d.block0.enum_value).1 } }
  else if (getOkString d.block0.duration_value).2 then
    { localValue with DurationValue := (getOkString d.block0.duration_value).1 }
  else localValue

/-- Source lines 212-241.  Returns the extended call log and the error (`none`
is `nil`); the resource data is only read. -/
def patchResourceSetting (env : Env) (d : ResourceData) (calls : List Call)
    (unset : Bool) (id : String) : List Call × Option GoError :=
  match env.generateUserAgentString d env.userAgent with
  | .error err => (calls, some err)
  | .ok userAgent =>
    let localValue : Option GoogleCloudResourcesettingsV1Value :=
      if !unset then some (patchLocalValue d) else none
    let call := Call.Patch userAgent id { Name := id, LocalValue := localValue, Metadata := none }
    match env.Do calls call with
    | .error err => (calls ++ [call], some (fmtErrorf "patching: " err))
    | .ok _ => (calls ++ [call], none)

/-- Source lines 149-167 of the read: the `local_value` block built from the two
replies, or `none` when building it dereferences a nil pointer
(`settingBasic.Metadata` or `LocalValue.EnumValue`). -/
def readLocalValue (settingBasic settingLocal : GoogleCloudResourcesettingsV1Setting) :
    Option LocalValueBlock :=
  match settingLocal.LocalValue with
  | none => some emptyBlock
  | some lv =>
    match settingBasic.Metadata with
    | none => none
    | some metadata =>
      if metadata.DataType = "BOOLEAN" then
        some { emptyBlock with boolean_value := some lv.BooleanValue }
      else if metadata.DataType = "STRING" then
        some { emptyBlock with string_value := some lv.StringValue }
      else if metadata.DataType = "STRING_SET" then
        some emptyBlock
      else if metadata.DataType = "ENUM_VALUE" then
        match lv.EnumValue with
        | none => none
        | some ev => some { emptyBlock with enum_value := some ev.Value }
      else if metadata.DataType = "DURATION_VALUE" then
        some { emptyBlock with duration_value := some lv.DurationValue }
      else if metadata.DataType = "STRING_MAP" then
        some emptyBlock
      else some emptyBlock

/-- Source lines 119-175. -/
def resourceGoogleResourceSettingsRead (parentType : String) (env : Env)
    (d : ResourceData) (calls : List Call) : Outcome :=
  match env.generateUserAgentString d env.userAgent with
  | .error err => { d := d, calls := calls, ret := Ret.err err }
  | .ok userAgent =>
    let getBasic := Call.Get userAgent d.Id "SETTING_VIEW_BASIC"
    match env.Do calls getBasic with
    | .error err =>
      let r := handleNotFoundError env err d ("ResourceSettings Not Found : " ++ d.Id)
      { d := r.1, calls := calls ++ [getBasic], ret := r.2 }
    | .ok settingBasic =>
      let getLocal := Call.Get userAgent d.Id "SETTING_VIEW_LOCAL_VALUE"
      match env.Do (calls ++ [getBasic]) getLocal with
      | .error err =>
        let r := handleNotFoundError env err d ("ResourceSettings Not Found : " ++ d.Id)
        { d := r.1, calls := calls ++ [getBasic, getLocal], ret := r.2 }
      | .ok settingLocal =>
        let d1 := d.Set "setting_name" (resourceSettingsShortName settingLocal.Name)
        match readLocalValue settingBasic settingLocal with
        | none => { d := d1, calls := calls ++ [getBasic, getLocal], ret := Ret.panic }
        | some block =>
          { d := d1.SetLocalValue [block], calls := calls ++ [getBasic, getLocal], ret := Ret.nil }

/-- Source lines 103-117. -/
def resourceGoogleResourceSettingsCreate (parentType : String) (env : Env)
    (d : ResourceData) (calls : List Call) : Outcome :=
  let settingName := d.Get "setting_name"
  let parentIdentifier := d.Get (resourceSettingsParentKey parentType)
  let id := resourceSettingsFullName parentType parentIdentifier settingName
  match patchResourceSetting env d calls false id with
  | (calls1, some err) => { d := d, calls := calls1, ret := Ret.err (fmtErrorf "Error creating: " err) }
  | (calls1, none) => resourceGoogleResourceSettingsRead parentType env (d.SetId id) calls1

/-- Source lines 177-185. -/
def resourceGoogleResourceSettingsUpdate (parentType : String) (env : Env)
    (d : ResourceData) (calls : List Call) : Outcome :=
  match patchResourceSetting env d calls false d.Id with
  | (calls1, some err) => { d := d, calls := calls1, ret := Ret.err (fmtErrorf "Error updating: " err) }
  | (calls1, none) => { d := d, calls := calls1, ret := Ret.nil }

/-- Source lines 187-195. -/
def resourceGoogleResourceSettingsDelete (parentType : String) (env : Env)
    (d : ResourceData) (calls : List Call) : Outcome :=
  match patchResourceSetting env d calls true d.Id with
  | (calls1, some err) => { d := d, calls := calls1, ret := Ret.err (fmtErrorf "Error deleting: " err) }
  | (calls1, none) => { d := d, calls := calls1, ret := Ret.nil }

/-! ## Concrete inputs

The configuration of the acceptance test (`TestAccOrganizationResourceSetting_basic`)
and small remote services used to evaluate the operations. -/

/-- Resource data with the given id, setting name, organization id and
`local_value` list; every other attribute is empty. -/
def sampleData (id settingName organizationId : String) (blocks : List LocalValueBlock) :
    ResourceData :=
  { id := id
    attrs := fun k =>
      if k = "setting_name" then settingName
      else if k = "organization_id" then organizationId
      else ""
    local_value := blocks }

/-- A remote service that answers every Patch with `patch`, every Get of the
basic view with `basic` and every other Get with `localView`. -/
def sampleRemote
    (patch basic localView : Except GoError GoogleCloudResourcesettingsV1Setting) :
    List Call → Call → Except GoError GoogleCloudResourcesettingsV1Setting :=
  fun _ call =>
    match call with
    | Call.Patch _ _ _ => patch
    | Call.Get _ _ view => if view = "SETTING_VIEW_BASIC" then basic else localView

/-- An environment over `sampleRemote` whose user agent is `"tf"`, generated
without error. -/
def sampleEnv
    (patch basic localView : Except GoError GoogleCloudResourcesettingsV1Setting) : Env :=
  { userAgent := "tf"
    generateUserAgentString := fun _ ua => .ok ua
    Do := sampleRemote patch basic localView
    wrapReadError := fun resource err => fmtErrorf (resource ++ ": ") err }

/-- A setting as the remote service returns it. -/
def sampleSetting (name : String) (dataType : Option String)
    (lv : Option GoogleCloudResourcesettingsV1Value) : GoogleCloudResourcesettingsV1Setting :=
  { Name := name, LocalValue := lv, Metadata := dataType.map fun t => { DataType := t } }

/-- The block `local_value { string_value = s }`. -/
def stringBlock (s : String) : LocalValueBlock :=
  { emptyBlock with string_value := some s }

/-- The resource of the acceptance test before it is created. -/
def testData : ResourceData :=
  sampleData "" "iam-serviceAccountKeyExpiry" "123456" [stringBlock "1hours"]

/-- The id the acceptance test's resource receives. -/
def testId : String := "organizations/123456/settings/iam-serviceAccountKeyExpiry"

/-- A remote error that is not a not-found. -/
def boom : GoError := { msg := "boom", notFound := false }

/-- A remote not-found error. -/
def gone : GoError := { msg := "googleapi: Error 404: not found", notFound := true }

/-- The remote service of the acceptance test: the Patch succeeds, the basic
view reports the data type `STRING` and the local-value view reports the
string `1hours`. -/
def testEnv : Env :=
  sampleEnv (.ok (sampleSetting testId none none))
    (.ok (sampleSetting testId (some "STRING") none))
    (.ok (sampleSetting testId none (some { zeroValue with StringValue := "1hours" })))

/-- A configuration whose setting name contains a `/`. -/
def slashData : ResourceData :=
  sampleData "" "a/b" "1" [stringBlock "x"]

/-- The id create derives for `slashData`. -/
def slashId : String := "organizations/1/settings/a/b"

/-- A remote service for `slashData`: the Patch succeeds and the two views
report the string `x` under the resource's own id. -/
def slashEnv : Env :=
  sampleEnv (.ok (sampleSetting slashId none none))
    (.ok (sampleSetting slashId (some "STRING") none))
    (.ok (sampleSetting slashId none (some { zeroValue with StringValue := "x" })))

/-- A remote service whose setting is a string set with a local value. -/
def stringSetEnv : Env :=
  sampleEnv (.ok (sampleSetting testId none none))
    (.ok (sampleSetting testId (some "STRING_SET") none))
    (.ok (sampleSetting testId none (some zeroValue)))

/-- A remote service whose setting has no local value. -/
def unsetEnv : Env :=
  sampleEnv (.ok (sampleSetting testId none none))
    (.ok (sampleSetting testId (some "STRING") none))
    (.ok (sampleSetting testId none none))

/-- A remote service that fails every Patch with `boom` and reports every
setting gone. -/
def failingEnv : Env :=
  sampleEnv (.error boom) (.error gone) (.error gone)

/-- A remote service whose local-value view alone reports the setting gone. -/
def halfGoneEnv : Env :=
  sampleEnv (.ok (sampleSetting testId none none))
    (.ok (sampleSetting testId (some "STRING") none))
    (.error gone)

/-- A remote service that accepts every Patch and then reports every setting
gone. -/
def goneAfterPatchEnv : Env :=
  sampleEnv (.ok (sampleSetting testId none none)) (.error gone) (.error gone)

/-- A remote service whose setting is a boolean with the local value `false`. -/
def booleanFalseEnv : Env :=
  sampleEnv (.ok (sampleSetting testId none none))
    (.ok (sampleSetting testId (some "BOOLEAN") none))
    (.ok (sampleSetting testId none (some zeroValue)))

/-- The acceptance test's resource once created. -/
def createdData : ResourceData :=
  sampleData testId "iam-serviceAccountKeyExpiry" "123456" [stringBlock "1hours"]

/-- A configuration that sets `boolean_value = false` and nothing else. -/
def falseData : ResourceData :=
  sampleData testId "iam-serviceAccountKeyExpiry" "123456"
    [{ emptyBlock with boolean_value := some false }]

/-- A configuration that sets all four fields at once. -/
def crowdedData : ResourceData :=
  sampleData testId "iam-serviceAccountKeyExpiry" "123456"
    [{ boolean_value := some false, string_value := some "s",
       enum_value := some "e", duration_value := some "3600s" }]

/-! ## Vocabulary of the claims -/

/-- The request `Settings.Patch(id, &Setting{Name: id, LocalValue: lv}).Do()` as sent
by a client with user agent `ua`. -/
abbrev patchCall (ua id : String) (lv : Option GoogleCloudResourcesettingsV1Value) : Call :=
  Call.Patch ua id { Name := id, LocalValue := lv, Metadata := none }

/-- The request `Settings.Get(id).View("SETTING_VIEW_BASIC").Do()`. -/
abbrev getBasicCall (ua id : String) : Call := Call.Get ua id "SETTING_VIEW_BASIC"

/-- The request `Settings.Get(id).View("SETTING_VIEW_LOCAL_VALUE").Do()`. -/
abbrev getLocalCall (ua id : String) : Call := Call.Get ua id "SETTING_VIEW_LOCAL_VALUE"

/-- The keys a `local_value` block populates, in schema order. -/
def populatedKeys (b : LocalValueBlock) : List String :=
  (if b.boolean_value.isSome then ["boolean_value"] else []) ++
  (if b.string_value.isSome then ["string_value"] else []) ++
  (if b.enum_value.isSome then ["enum_value"] else []) ++
  (if b.duration_value.isSome then ["duration_value"] else [])

/-- The key that corresponds to a metadata data type, for the four value
variants the claims name; no key corresponds to any other data type. -/
def keyOfDataType (dataType : String) : Option String :=
  if dataType = "BOOLEAN" then some "boolean_value"
  else if dataType = "STRING" then some "string_value"
  else if dataType = "ENUM_VALUE" then some "enum_value"
  else if dataType = "DURATION_VALUE" then some "duration_value"
  else none

/-- The number of variants set in a value sent to the service: a plain field is
set when it is not its zero value, the pointer `EnumValue` when it is not nil. -/
def variantsSet (v : GoogleCloudResourcesettingsV1Value) : Nat :=
  (if v.BooleanValue then 1 else 0) + (if v.StringValue ≠ "" then 1 else 0) +
  (if v.EnumValue.isSome then 1 else 0) + (if v.DurationValue ≠ "" then 1 else 0)

/-- A configured field of the `local_value` block, with its value. -/
inductive FieldValue where
  | boolean (b : Bool)
  | string (s : String)
  | enum (s : String)
  | duration (s : String)
deriving DecidableEq

/-- Whether a configured value differs from the zero value of its type. -/
def FieldValue.nonZero : FieldValue → Bool
  | .boolean b => b
  | .string s => s != ""
  | .enum s => s != ""
  | .duration s => s != ""

/-- The four fields in the fixed order boolean, string, enum, duration; an
unconfigured field reads as the zero value of its type. -/
def fieldsInOrder (b : LocalValueBlock) : List FieldValue :=
  [ .boolean (b.boolean_value.getD false), .string (b.string_value.getD ""),
    .enum (b.enum_value.getD ""), .duration (b.duration_value.getD "") ]

/-- The value in which exactly the variant of the given field is set. -/
def variantOf : FieldValue → GoogleCloudResourcesettingsV1Value
  | .boolean b => { zeroValue with BooleanValue := b }
  | .string s => { zeroValue with StringValue := s }
  | .enum s => { zeroValue with EnumValue := some { Value := s } }
  | .duration s => { zeroValue with DurationValue := s }

/-- The rule "first non-empty field wins", as the claim words it: the first
field in the fixed order whose value is not its zero value supplies the single
variant; when there is none, no variant is set. -/
def firstNonEmptyFieldWins (b : LocalValueBlock) : GoogleCloudResourcesettingsV1Value :=
  match (fieldsInOrder b).find? FieldValue.nonZero with
  | some f => variantOf f
  | none => zeroValue

/-! ## Lemmas on splitting -/

theorem splitChars_ne_nil (sep : Char) (s : List Char) : splitChars sep s ≠ [] := by
  induction s with
  | nil => simp [splitChars]
  | cons c cs ih =>
    unfold splitChars
    split
    · simp
    · split
      · simp
      · simp

/-- The index `len(split)-1` used by `resourceSettingsShortName` is in range. -/
theorem shortName_index_in_range (s : String) :
    (stringsSplitSlash s).length - 1 < (stringsSplitSlash s).length := by
  have h := splitChars_ne_nil '/' s.data
  have : 0 < (splitChars '/' s.data).length := List.length_pos.mpr h
  simp [stringsSplitSlash]
  omega

/-- Joining the segments with the separator gives the sequence back. -/
theorem splitChars_intercalate (sep : Char) (s : List Char) :
    [sep].intercalate (splitChars sep s) = s := by
  induction s with
  | nil => simp [splitChars, List.intercalate]
  | cons c cs ih =>
    unfold splitChars
    split
    · rename_i h
      subst h
      have hne := splitChars_ne_nil c cs
      cases hsp : splitChars c cs with
      | nil => exact absurd hsp hne
      | cons seg rest =>
        rw [hsp] at ih
        simp [List.intercalate] at ih ⊢
        simpa using ih
    · cases hsp : splitChars sep cs with
      | nil => exact absurd hsp (splitChars_ne_nil sep cs)
      | cons seg rest =>
        rw [hsp] at ih
        simp [List.intercalate] at ih ⊢
        cases rest with
        | nil => simpa using ih
        | cons r rs => simpa using ih

/-- No segment contains the separator. -/
theorem splitChars_no_sep (sep : Char) (s : List Char) :
    ∀ seg ∈ splitChars sep s, sep ∉ seg := by
  induction s with
  | nil => simp [splitChars]
  | cons c cs ih =>
    unfold splitChars
    split
    · intro seg hseg
      rcases List.mem_cons.mp hseg with h | h
      · simp [h]
      · exact ih seg h
    · rename_i hc
      cases hsp : splitChars sep cs with
      | nil => exact absurd hsp (splitChars_ne_nil sep cs)
      | cons seg rest =>
        rw [hsp] at ih
        intro seg2 hseg2
        rcases List.mem_cons.mp hseg2 with h | h
        · subst h
          intro hmem
          rcases List.mem_cons.mp hmem with h1 | h1
          · exact hc h1.symm
          · exact ih seg (List.mem_cons_self _ _) h1
        · exact ih seg2 (List.mem_cons_of_mem _ h)

theorem splitChars_of_not_mem (sep : Char) (s : List Char) (h : sep ∉ s) :
    splitChars sep s = [s] := by
  induction s with
  | nil => simp [splitChars]
  | cons c cs ih =>
    have hc : ¬ c = sep := fun e => h (by simp [e])
    have hcs : sep ∉ cs := fun e => h (List.mem_cons_of_mem _ e)
    simp [splitChars, hc, ih hcs]

theorem splitChars_append_sep (sep : Char) (a b : List Char) :
    splitChars sep (a ++ sep :: b) = splitChars sep a ++ splitChars sep b := by
  induction a with
  | nil => simp [splitChars]
  | cons c cs ih =>
    by_cases hc : c = sep
    · simp [splitChars, hc]
      rw [← hc] at ih ⊢
      exact ih
    · cases hsp : splitChars sep cs with
      | nil => exact absurd hsp (splitChars_ne_nil sep cs)
      | cons seg rest =>
        rw [hsp] at ih
        simp [splitChars, hc, ih, hsp]

theorem splitChars_getLast_append (sep : Char) (a b : List Char) :
    (splitChars sep (a ++ sep :: b)).getLast? = (splitChars sep b).getLast? := by
  rw [splitChars_append_sep]
  cases hsp : splitChars sep b with
  | nil => exact absurd hsp (splitChars_ne_nil sep b)
  | cons seg rest =>
    rw [List.getLast?_append]
    cases h : (seg :: rest).getLast? with
    | none => simp at h
    | some x => rfl

theorem getD_length_pred {α : Type} (l : List α) (d : α) :
    l.getD (l.length - 1) d = l.getLast?.getD d := by
  induction l with
  | nil => simp
  | cons x xs ih =>
    cases xs with
    | nil => simp
    | cons y ys =>
      simp at ih ⊢
      exact ih

theorem shortName_append_slash (a b : String) (h : '/' ∉ b.data) :
    resourceSettingsShortName (a ++ "/" ++ b) = b := by
  unfold resourceSettingsShortName stringsSplitSlash
  simp only [getD_length_pred]
  have hd : (a ++ "/" ++ b).data = a.data ++ '/' :: b.data := by
    simp [String.data_append]
  rw [hd, List.getLast?_map, splitChars_getLast_append, splitChars_of_not_mem _ _ h]
  simp

theorem fullName_eq (parentType parentIdentifier settingName : String) :
    resourceSettingsFullName parentType parentIdentifier settingName
      = (parentType ++ "s/" ++ parentIdentifier ++ "/settings") ++ "/" ++ settingName := by
  unfold resourceSettingsFullName
  apply String.ext
  simp [String.data_append]

theorem shortName_fullName (parentType parentIdentifier settingName : String)
    (h : '/' ∉ settingName.data) :
    resourceSettingsShortName
      (resourceSettingsFullName parentType parentIdentifier settingName) = settingName := by
  rw [fullName_eq]
  exact shortName_append_slash _ _ h

/-- The short name of a full name depends on the setting name alone: it is the
last segment of the setting name. -/
theorem shortName_fullName_segment (parentType parentIdentifier settingName : String) :
    resourceSettingsShortName
      (resourceSettingsFullName parentType parentIdentifier settingName)
      = resourceSettingsShortName ("/" ++ settingName) := by
  rw [fullName_eq]
  unfold resourceSettingsShortName stringsSplitSlash
  simp only [getD_length_pred]
  have hd : ((parentType ++ "s/" ++ parentIdentifier ++ "/settings") ++ "/" ++ settingName).data
      = (parentType ++ "s/" ++ parentIdentifier ++ "/settings").data ++ '/' :: settingName.data := by
    simp [String.data_append]
  have hd2 : ("/" ++ settingName).data = ([] : List Char) ++ '/' :: settingName.data := by
    simp [String.data_append]
  rw [hd, hd2, List.getLast?_map, List.getLast?_map, splitChars_getLast_append,
    splitChars_getLast_append]

/-- C1: the short name of a full name is the setting name it was built from,
whenever the setting name contains no `/` (nothing is needed of the parent type
and identifier, nor that any of the three be non-empty). -/
theorem C1_shortName_fullName (parentType parentIdentifier settingName : String)
    (h : '/' ∉ settingName.data) :
    resourceSettingsShortName
      (resourceSettingsFullName parentType parentIdentifier settingName) = settingName :=
  shortName_fullName parentType parentIdentifier settingName h

theorem C1_shortName_fullName_witness :
    '/' ∉ "iam-serviceAccountKeyExpiry".data ∧
    resourceSettingsShortName
      (resourceSettingsFullName "organization" "123456" "iam-serviceAccountKeyExpiry")
        = "iam-serviceAccountKeyExpiry" :=
  ⟨by decide, C1_shortName_fullName "organization" "123456" "iam-serviceAccountKeyExpiry" (by decide)⟩

/-! ## The operations, case by case -/

theorem patch_of_userAgent_error (env : Env) (d : ResourceData) (calls : List Call)
    (unset : Bool) (id : String) (e : GoError)
    (hua : env.generateUserAgentString d env.userAgent = .error e) :
    patchResourceSetting env d calls unset id = (calls, some e) := by
  simp [patchResourceSetting, hua]

theorem patch_of_ok (env : Env) (d : ResourceData) (calls : List Call)
    (unset : Bool) (id ua : String) (s : GoogleCloudResourcesettingsV1Setting)
    (hua : env.generateUserAgentString d env.userAgent = .ok ua)
    (hdo : env.Do calls (Call.Patch ua id
        { Name := id, LocalValue := if !unset then some (patchLocalValue d) else none,
          Metadata := none }) = .ok s) :
    patchResourceSetting env d calls unset id
      = (calls ++ [Call.Patch ua id
          { Name := id, LocalValue := if !unset then some (patchLocalValue d) else none,
            Metadata := none }], none) := by
  simp only [patchResourceSetting, hua, hdo]

theorem patch_of_error (env : Env) (d : ResourceData) (calls : List Call)
    (unset : Bool) (id ua : String) (e : GoError)
    (hua : env.generateUserAgentString d env.userAgent = .ok ua)
    (hdo : env.Do calls (Call.Patch ua id
        { Name := id, LocalValue := if !unset then some (patchLocalValue d) else none,
          Metadata := none }) = .error e) :
    patchResourceSetting env d calls unset id
      = (calls ++ [Call.Patch ua id
          { Name := id, LocalValue := if !unset then some (patchLocalValue d) else none,
            Metadata := none }], some (fmtErrorf "patching: " e)) := by
  simp only [patchResourceSetting, hua, hdo]

theorem read_of_userAgent_error (parentType : String) (env : Env) (d : ResourceData)
    (calls : List Call) (e : GoError)
    (hua : env.generateUserAgentString d env.userAgent = .error e) :
    resourceGoogleResourceSettingsRead parentType env d calls
      = { d := d, calls := calls, ret := Ret.err e } := by
  simp only [resourceGoogleResourceSettingsRead, hua]

theorem read_of_basic_error (parentType : String) (env : Env) (d : ResourceData)
    (calls : List Call) (ua : String) (e : GoError)
    (hua : env.generateUserAgentString d env.userAgent = .ok ua)
    (hb : env.Do calls (Call.Get ua d.id "SETTING_VIEW_BASIC") = .error e) :
    resourceGoogleResourceSettingsRead parentType env d calls
      = { d := (handleNotFoundError env e d ("ResourceSettings Not Found : " ++ d.id)).1,
          calls := calls ++ [Call.Get ua d.id "SETTING_VIEW_BASIC"],
          ret := (handleNotFoundError env e d ("ResourceSettings Not Found : " ++ d.id)).2 } := by
  simp only [resourceGoogleResourceSettingsRead, hua, ResourceData.Id, hb]

theorem read_of_local_error (parentType : String) (env : Env) (d : ResourceData)
    (calls : List Call) (ua : String) (b : GoogleCloudResourcesettingsV1Setting) (e : GoError)
    (hua : env.generateUserAgentString d env.userAgent = .ok ua)
    (hb : env.Do calls (Call.Get ua d.id "SETTING_VIEW_BASIC") = .ok b)
    (hl : env.Do (calls ++ [Call.Get ua d.id "SETTING_VIEW_BASIC"])
        (Call.Get ua d.id "SETTING_VIEW_LOCAL_VALUE") = .error e) :
    resourceGoogleResourceSettingsRead parentType env d calls
      = { d := (handleNotFoundError env e d ("ResourceSettings Not Found : " ++ d.id)).1,
          calls := calls ++ [Call.Get ua d.id "SETTING_VIEW_BASIC",
                             Call.Get ua d.id "SETTING_VIEW_LOCAL_VALUE"],
          ret := (handleNotFoundError env e d ("ResourceSettings Not Found : " ++ d.id)).2 } := by
  simp only [resourceGoogleResourceSettingsRead, hua, ResourceData.Id, hb, hl]

theorem read_of_replies (parentType : String) (env : Env) (d : ResourceData)
    (calls : List Call) (ua : String) (b l : GoogleCloudResourcesettingsV1Setting)
    (hua : env.generateUserAgentString d env.userAgent = .ok ua)
    (hb : env.Do calls (Call.Get ua d.id "SETTING_VIEW_BASIC") = .ok b)
    (hl : env.Do (calls ++ [Call.Get ua d.id "SETTING_VIEW_BASIC"])
        (Call.Get ua d.id "SETTING_VIEW_LOCAL_VALUE") = .ok l) :
    resourceGoogleResourceSettingsRead parentType env d calls
      = match readLocalValue b l with
        | none =>
          { d := d.Set "setting_name" (resourceSettingsShortName l.Name),
            calls := calls ++ [Call.Get ua d.id "SETTING_VIEW_BASIC",
                               Call.Get ua d.id "SETTING_VIEW_LOCAL_VALUE"],
            ret := Ret.panic }
        | some block =>
          { d := (d.Set "setting_name" (resourceSettingsShortName l.Name)).SetLocalValue [block],
            calls := calls ++ [Call.Get ua d.id "SETTING_VIEW_BASIC",
                               Call.Get ua d.id "SETTING_VIEW_LOCAL_VALUE"],
            ret := Ret.nil } := by
  simp only [resourceGoogleResourceSettingsRead, hua, ResourceData.Id, hb, hl]

/-- The read only ever appends to the log of calls. -/
theorem read_calls_extend (parentType : String) (env : Env) (d : ResourceData)
    (calls : List Call) :
    calls <+: (resourceGoogleResourceSettingsRead parentType env d calls).calls := by
  cases hua : env.generateUserAgentString d env.userAgent with
  | error e =>
    rw [read_of_userAgent_error parentType env d calls e hua]
  | ok ua =>
    cases hb : env.Do calls (Call.Get ua d.id "SETTING_VIEW_BASIC") with
    | error e =>
      rw [read_of_basic_error parentType env d calls ua e hua hb]
      exact List.prefix_append _ _
    | ok b =>
      cases hl : env.Do (calls ++ [Call.Get ua d.id "SETTING_VIEW_BASIC"])
          (Call.Get ua d.id "SETTING_VIEW_LOCAL_VALUE") with
      | error e =>
        rw [read_of_local_error parentType env d calls ua b e hua hb hl]
        exact List.prefix_append _ _
      | ok l =>
        rw [read_of_replies parentType env d calls ua b l hua hb hl]
        cases readLocalValue b l <;> exact List.prefix_append _ _

/-- The read leaves the id alone, except that a not-found clears it, in which
case the read returns no error. -/
theorem read_id (parentType : String) (env : Env) (d : ResourceData) (calls : List Call) :
    (resourceGoogleResourceSettingsRead parentType env d calls).d.id = d.id ∨
    ((resourceGoogleResourceSettingsRead parentType env d calls).d.id = "" ∧
     (resourceGoogleResourceSettingsRead parentType env d calls).ret = Ret.nil) := by
  cases hua : env.generateUserAgentString d env.userAgent with
  | error e =>
    rw [read_of_userAgent_error parentType env d calls e hua]
    exact Or.inl rfl
  | ok ua =>
    cases hb : env.Do calls (Call.Get ua d.id "SETTING_VIEW_BASIC") with
    | error e =>
      rw [read_of_basic_error parentType env d calls ua e hua hb]
      by_cases h : e.notFound <;> simp [handleNotFoundError, h, ResourceData.SetId]
    | ok b =>
      cases hl : env.Do (calls ++ [Call.Get ua d.id "SETTING_VIEW_BASIC"])
          (Call.Get ua d.id "SETTING_VIEW_LOCAL_VALUE") with
      | error e =>
        rw [read_of_local_error parentType env d calls ua b e hua hb hl]
        by_cases h : e.notFound <;> simp [handleNotFoundError, h, ResourceData.SetId]
      | ok l =>
        rw [read_of_replies parentType env d calls ua b l hua hb hl]
        cases readLocalValue b l <;> exact Or.inl rfl

/-- The read changes the id only by clearing it, which happens only when one of
its two Gets reports not-found; the read then returns no error. -/
theorem read_id_cases (parentType : String) (env : Env) (d : ResourceData)
    (calls : List Call) :
    (resourceGoogleResourceSettingsRead parentType env d calls).d.id = d.id ∨
    ((resourceGoogleResourceSettingsRead parentType env d calls).d.id = "" ∧
     (resourceGoogleResourceSettingsRead parentType env d calls).ret = Ret.nil ∧
     ∃ ua e, e.notFound = true ∧
       env.generateUserAgentString d env.userAgent = .ok ua ∧
       (env.Do calls (Call.Get ua d.id "SETTING_VIEW_BASIC") = .error e ∨
        ∃ b, env.Do calls (Call.Get ua d.id "SETTING_VIEW_BASIC") = .ok b ∧
          env.Do (calls ++ [Call.Get ua d.id "SETTING_VIEW_BASIC"])
            (Call.Get ua d.id "SETTING_VIEW_LOCAL_VALUE") = .error e)) := by
  cases hua : env.generateUserAgentString d env.userAgent with
  | error e =>
    rw [read_of_userAgent_error parentType env d calls e hua]
    exact Or.inl rfl
  | ok ua =>
    cases hb : env.Do calls (Call.Get ua d.id "SETTING_VIEW_BASIC") with
    | error e =>
      rw [read_of_basic_error parentType env d calls ua e hua hb]
      by_cases h : e.notFound
      · refine Or.inr ⟨?_, ?_, ua, e, h, rfl, Or.inl hb⟩
        · simp [handleNotFoundError, h, ResourceData.SetId]
        · simp [handleNotFoundError, h]
      · refine Or.inl ?_
        simp [handleNotFoundError, h]
    | ok b =>
      cases hl : env.Do (calls ++ [Call.Get ua d.id "SETTING_VIEW_BASIC"])
          (Call.Get ua d.id "SETTING_VIEW_LOCAL_VALUE") with
      | error e =>
        rw [read_of_local_error parentType env d calls ua b e hua hb hl]
        by_cases h : e.notFound
        · refine Or.inr ⟨?_, ?_, ua, e, h, rfl, Or.inr ⟨b, hb, hl⟩⟩
          · simp [handleNotFoundError, h, ResourceData.SetId]
          · simp [handleNotFoundError, h]
        · refine Or.inl ?_
          simp [handleNotFoundError, h]
      | ok l =>
        rw [read_of_replies parentType env d calls ua b l hua hb hl]
        cases readLocalValue b l <;> exact Or.inl rfl

theorem update_of_userAgent_error (parentType : String) (env : Env) (d : ResourceData)
    (calls : List Call) (e : GoError)
    (hua : env.generateUserAgentString d env.userAgent = .error e) :
    resourceGoogleResourceSettingsUpdate parentType env d calls
      = { d := d, calls := calls, ret := Ret.err (fmtErrorf "Error updating: " e) } := by
  simp only [resourceGoogleResourceSettingsUpdate,
    patch_of_userAgent_error env d calls false d.Id e hua]

theorem update_of_ok (parentType : String) (env : Env) (d : ResourceData)
    (calls : List Call) (ua : String) (s : GoogleCloudResourcesettingsV1Setting)
    (hua : env.generateUserAgentString d env.userAgent = .ok ua)
    (hdo : env.Do calls (patchCall ua d.id (some (patchLocalValue d))) = .ok s) :
    resourceGoogleResourceSettingsUpdate parentType env d calls
      = { d := d, calls := calls ++ [patchCall ua d.id (some (patchLocalValue d))],
          ret := Ret.nil } := by
  have hp := patch_of_ok env d calls false d.id ua s hua hdo
  simp only [resourceGoogleResourceSettingsUpdate, ResourceData.Id, hp]
  rfl

theorem update_of_error (parentType : String) (env : Env) (d : ResourceData)
    (calls : List Call) (ua : String) (e : GoError)
    (hua : env.generateUserAgentString d env.userAgent = .ok ua)
    (hdo : env.Do calls (patchCall ua d.id (some (patchLocalValue d))) = .error e) :
    resourceGoogleResourceSettingsUpdate parentType env d calls
      = { d := d, calls := calls ++ [patchCall ua d.id (some (patchLocalValue d))],
          ret := Ret.err (fmtErrorf "Error updating: " (fmtErrorf "patching: " e)) } := by
  have hp := patch_of_error env d calls false d.id ua e hua hdo
  simp only [resourceGoogleResourceSettingsUpdate, ResourceData.Id, hp]
  rfl

theorem delete_of_userAgent_error (parentType : String) (env : Env) (d : ResourceData)
    (calls : List Call) (e : GoError)
    (hua : env.generateUserAgentString d env.userAgent = .error e) :
    resourceGoogleResourceSettingsDelete parentType env d calls
      = { d := d, calls := calls, ret := Ret.err (fmtErrorf "Error deleting: " e) } := by
  simp only [resourceGoogleResourceSettingsDelete,
    patch_of_userAgent_error env d calls true d.Id e hua]

theorem delete_of_ok (parentType : String) (env : Env) (d : ResourceData)
    (calls : List Call) (ua : String) (s : GoogleCloudResourcesettingsV1Setting)
    (hua : env.generateUserAgentString d env.userAgent = .ok ua)
    (hdo : env.Do calls (patchCall ua d.id none) = .ok s) :
    resourceGoogleResourceSettingsDelete parentType env d calls
      = { d := d, calls := calls ++ [patchCall ua d.id none], ret := Ret.nil } := by
  have hp := patch_of_ok env d calls true d.id ua s hua hdo
  simp only [resourceGoogleResourceSettingsDelete, ResourceData.Id, hp]
  rfl

theorem delete_of_error (parentType : String) (env : Env) (d : ResourceData)
    (calls : List Call) (ua : String) (e : GoError)
    (hua : env.generateUserAgentString d env.userAgent = .ok ua)
    (hdo : env.Do calls (patchCall ua d.id none) = .error e) :
    resourceGoogleResourceSettingsDelete parentType env d calls
      = { d := d, calls := calls ++ [patchCall ua d.id none],
          ret := Ret.err (fmtErrorf "Error deleting: " (fmtErrorf "patching: " e)) } := by
  have hp := patch_of_error env d calls true d.id ua e hua hdo
  simp only [resourceGoogleResourceSettingsDelete, ResourceData.Id, hp]
  rfl

theorem create_of_userAgent_error (parentType : String) (env : Env) (d : ResourceData)
    (calls : List Call) (e : GoError)
    (hua : env.generateUserAgentString d env.userAgent = .error e) :
    resourceGoogleResourceSettingsCreate parentType env d calls
      = { d := d, calls := calls, ret := Ret.err (fmtErrorf "Error creating: " e) } := by
  simp only [resourceGoogleResourceSettingsCreate,
    patch_of_userAgent_error env d calls false _ e hua]

theorem create_of_ok (parentType : String) (env : Env) (d : ResourceData)
    (calls : List Call) (ua : String) (s : GoogleCloudResourcesettingsV1Setting)
    (hua : env.generateUserAgentString d env.userAgent = .ok ua)
    (hdo : env.Do calls (patchCall ua
        (resourceSettingsFullName parentType (d.Get (resourceSettingsParentKey parentType))
          (d.Get "setting_name")) (some (patchLocalValue d))) = .ok s) :
    resourceGoogleResourceSettingsCreate parentType env d calls
      = resourceGoogleResourceSettingsRead parentType env
          (d.SetId (resourceSettingsFullName parentType
            (d.Get (resourceSettingsParentKey parentType)) (d.Get "setting_name")))
          (calls ++ [patchCall ua
            (resourceSettingsFullName parentType (d.Get (resourceSettingsParentKey parentType))
              (d.Get "setting_name")) (some (patchLocalValue d))]) := by
  have hp := patch_of_ok env d calls false _ ua s hua hdo
  simp only [resourceGoogleResourceSettingsCreate, hp]
  rfl

theorem create_of_error (parentType : String) (env : Env) (d : ResourceData)
    (calls : List Call) (ua : String) (e : GoError)
    (hua : env.generateUserAgentString d env.userAgent = .ok ua)
    (hdo : env.Do calls (patchCall ua
        (resourceSettingsFullName parentType (d.Get (resourceSettingsParentKey parentType))
          (d.Get "setting_name")) (some (patchLocalValue d))) = .error e) :
    resourceGoogleResourceSettingsCreate parentType env d calls
      = { d := d,
          calls := calls ++ [patchCall ua
            (resourceSettingsFullName parentType (d.Get (resourceSettingsParentKey parentType))
              (d.Get "setting_name")) (some (patchLocalValue d))],
          ret := Ret.err (fmtErrorf "Error creating: " (fmtErrorf "patching: " e)) } := by
  have hp := patch_of_error env d calls false _ ua e hua hdo
  simp only [resourceGoogleResourceSettingsCreate, hp]
  rfl

/-- Once the user agent is generated, create issues its Patch before anything
else. -/
theorem create_calls_extend (parentType : String) (env : Env) (d : ResourceData)
    (calls : List Call) (ua : String)
    (hua : env.generateUserAgentString d env.userAgent = .ok ua) :
    (calls ++ [patchCall ua
        (resourceSettingsFullName parentType (d.Get (resourceSettingsParentKey parentType))
          (d.Get "setting_name")) (some (patchLocalValue d))])
      <+: (resourceGoogleResourceSettingsCreate parentType env d calls).calls := by
  cases hdo : env.Do calls (patchCall ua
        (resourceSettingsFullName parentType (d.Get (resourceSettingsParentKey parentType))
          (d.Get "setting_name")) (some (patchLocalValue d))) with
  | error e =>
    rw [create_of_error parentType env d calls ua e hua hdo]
  | ok s =>
    rw [create_of_ok parentType env d calls ua s hua hdo]
    exact read_calls_extend _ _ _ _

/-- Once the user agent is generated, update issues exactly its Patch. -/
theorem update_calls (parentType : String) (env : Env) (d : ResourceData)
    (calls : List Call) (ua : String)
    (hua : env.generateUserAgentString d env.userAgent = .ok ua) :
    (resourceGoogleResourceSettingsUpdate parentType env d calls).calls
      = calls ++ [patchCall ua d.id (some (patchLocalValue d))] := by
  cases hdo : env.Do calls (patchCall ua d.id (some (patchLocalValue d))) with
  | error e => rw [update_of_error parentType env d calls ua e hua hdo]
  | ok s => rw [update_of_ok parentType env d calls ua s hua hdo]

/-- Once the user agent is generated, delete issues exactly its Patch. -/
theorem delete_calls (parentType : String) (env : Env) (d : ResourceData)
    (calls : List Call) (ua : String)
    (hua : env.generateUserAgentString d env.userAgent = .ok ua) :
    (resourceGoogleResourceSettingsDelete parentType env d calls).calls
      = calls ++ [patchCall ua d.id none] := by
  cases hdo : env.Do calls (patchCall ua d.id none) with
  | error e => rw [delete_of_error parentType env d calls ua e hua hdo]
  | ok s => rw [delete_of_ok parentType env d calls ua s hua hdo]

theorem patchLocalValue_stringBlock (d : ResourceData) (s : String) (hs : s ≠ "")
    (hblock : d.local_value = [stringBlock s]) :
    patchLocalValue d = { zeroValue with StringValue := s } := by
  simp [patchLocalValue, ResourceData.block0, hblock, stringBlock, emptyBlock, getOkBool,
    getOkString, hs]

/-- What the block built by the read looks like, whenever building it does not
panic. -/
theorem readLocalValue_some (b l : GoogleCloudResourcesettingsV1Setting)
    (block : LocalValueBlock) (h : readLocalValue b l = some block) :
    (populatedKeys block).length ≤ 1 ∧
    (l.LocalValue = none → block = emptyBlock) ∧
    (∀ lv md, l.LocalValue = some lv → b.Metadata = some md →
      populatedKeys block = (keyOfDataType md.DataType).toList ∧
      (∀ v, block.boolean_value = some v → v = lv.BooleanValue) ∧
      (∀ v, block.string_value = some v → v = lv.StringValue) ∧
      (∀ v, block.enum_value = some v → lv.EnumValue = some { Value := v }) ∧
      (∀ v, block.duration_value = some v → v = lv.DurationValue)) := by
  cases hlv : l.LocalValue with
  | none =>
    simp only [readLocalValue, hlv, Option.some.injEq] at h
    subst h
    simp [populatedKeys, emptyBlock]
  | some lv =>
    cases hmd : b.Metadata with
    | none => simp [readLocalValue, hlv, hmd] at h
    | some md =>
      obtain ⟨dt⟩ := md
      simp only [readLocalValue, hlv, hmd] at h
      by_cases h1 : dt = "BOOLEAN"
      · subst h1
        simp at h
        subst h
        simp [populatedKeys, emptyBlock, keyOfDataType]
      by_cases h2 : dt = "STRING"
      · subst h2
        simp at h
        subst h
        simp [populatedKeys, emptyBlock, keyOfDataType]
      by_cases h3 : dt = "STRING_SET"
      · subst h3
        simp at h
        subst h
        simp [populatedKeys, emptyBlock, keyOfDataType]
      by_cases h4 : dt = "ENUM_VALUE"
      · subst h4
        cases hev : lv.EnumValue with
        | none => simp [hev] at h
        | some ev =>
          simp [hev] at h
          subst h
          simp [populatedKeys, emptyBlock, keyOfDataType, hev]
      by_cases h5 : dt = "DURATION_VALUE"
      · subst h5
        simp at h
        subst h
        simp [populatedKeys, emptyBlock, keyOfDataType]
      · simp [h1, h2, h3, h4, h5] at h
        subst h
        simp [populatedKeys, emptyBlock, keyOfDataType, h1, h2, h4, h5]

/-- A read whose first Get succeeds issues exactly two calls, a Get per view. -/
theorem read_calls_of_basic_ok (parentType : String) (env : Env) (d : ResourceData)
    (calls : List Call) (ua : String) (b : GoogleCloudResourcesettingsV1Setting)
    (hua : env.generateUserAgentString d env.userAgent = .ok ua)
    (hb : env.Do calls (getBasicCall ua d.id) = .ok b) :
    (resourceGoogleResourceSettingsRead parentType env d calls).calls
      = calls ++ [getBasicCall ua d.id, getLocalCall ua d.id] := by
  cases hl : env.Do (calls ++ [getBasicCall ua d.id]) (getLocalCall ua d.id) with
  | error e =>
    rw [read_of_local_error parentType env d calls ua b e hua hb hl]
  | ok l =>
    rw [read_of_replies parentType env d calls ua b l hua hb hl]
    cases readLocalValue b l <;> rfl

theorem fmtErrorf_patching (text : String) (e : GoError) :
    fmtErrorf text (fmtErrorf "patching: " e)
      = { msg := (text ++ "patching: ") ++ e.msg, notFound := false } := by
  simp [fmtErrorf, String.append_assoc]

/-- The value built from the configuration follows the rule "first non-empty
field wins". -/
theorem patchLocalValue_eq_first (d : ResourceData) :
    patchLocalValue d = firstNonEmptyFieldWins d.block0 := by
  simp only [patchLocalValue, firstNonEmptyFieldWins, fieldsInOrder, getOkBool, getOkString]
  generalize d.block0.boolean_value.getD false = bv
  generalize d.block0.string_value.getD "" = sv
  generalize d.block0.enum_value.getD "" = ev
  generalize d.block0.duration_value.getD "" = dv
  cases bv with
  | true => simp [FieldValue.nonZero, variantOf, List.find?]
  | false =>
    cases h1 : (sv != "") with
    | true => simp [FieldValue.nonZero, variantOf, List.find?, h1]
    | false =>
      cases h2 : (ev != "") with
      | true => simp [FieldValue.nonZero, variantOf, List.find?, h1, h2]
      | false =>
        cases h3 : (dv != "") with
        | true => simp [FieldValue.nonZero, variantOf, List.find?, h1, h2, h3]
        | false => simp [FieldValue.nonZero, variantOf, List.find?, h1, h2, h3]

/-- The rule sets at most one variant, and exactly one when some field is not
its zero value. -/
theorem variantsSet_first (b : LocalValueBlock) :
    variantsSet (firstNonEmptyFieldWins b) ≤ 1 ∧
    (variantsSet (firstNonEmptyFieldWins b) = 1 ↔
      ∃ f ∈ fieldsInOrder b, f.nonZero = true) := by
  unfold firstNonEmptyFieldWins fieldsInOrder
  generalize b.boolean_value.getD false = bv
  generalize b.string_value.getD "" = sv
  generalize b.enum_value.getD "" = ev
  generalize b.duration_value.getD "" = dv
  cases bv with
  | true => simp [FieldValue.nonZero, variantOf, List.find?, variantsSet, zeroValue]
  | false =>
    cases h1 : (sv != "") with
    | true =>
      have h1n : sv ≠ "" := by simpa using h1
      simp [FieldValue.nonZero, variantOf, List.find?, variantsSet, zeroValue, h1, h1n]
    | false =>
      have h1n : sv = "" := by simpa using h1
      cases h2 : (ev != "") with
      | true =>
        simp [FieldValue.nonZero, variantOf, List.find?, variantsSet, zeroValue, h1, h2]
      | false =>
        have h2n : ev = "" := by simpa using h2
        cases h3 : (dv != "") with
        | true =>
          have h3n : dv ≠ "" := by simpa using h3
          simp [FieldValue.nonZero, variantOf, List.find?, variantsSet, zeroValue, h1, h2, h3,
            h3n]
        | false =>
          have h3n : dv = "" := by simpa using h3
          simp [FieldValue.nonZero, variantOf, List.find?, variantsSet, zeroValue, h1, h2, h3,
            h1n, h2n, h3n]

/-! ## Claims -/

/-- C2, as stated, fails: when the Patch of a create succeeds and the first Get
of the read that follows reports not-found, create returns no error and the
resource id it leaves is empty, not the full name. -/
theorem C2_counterexample :
    goneAfterPatchEnv.Do []
        (patchCall "tf" testId (some { zeroValue with StringValue := "1hours" }))
      = .ok { Name := testId, LocalValue := none, Metadata := none } ∧
    goneAfterPatchEnv.Do
        [patchCall "tf" testId (some { zeroValue with StringValue := "1hours" })]
        (getBasicCall "tf" testId)
      = .error gone ∧
    (resourceGoogleResourceSettingsCreate "organization" goneAfterPatchEnv testData []).calls
      = [patchCall "tf" testId (some { zeroValue with StringValue := "1hours" }),
         getBasicCall "tf" testId] ∧
    (resourceGoogleResourceSettingsCreate "organization" goneAfterPatchEnv testData []).ret
      = Ret.nil ∧
    (resourceGoogleResourceSettingsCreate "organization" goneAfterPatchEnv testData []).d.id
      = "" ∧
    (resourceGoogleResourceSettingsCreate "organization" goneAfterPatchEnv testData []).d.id
      ≠ "organizations/123456/settings/iam-serviceAccountKeyExpiry" :=
  ⟨rfl, rfl, by decide, by decide, by decide, by decide⟩

/-- C2, amended: create issues its Patch, the first call it makes once the user
agent is generated, with the request path and the body's name both equal to
`parentType ++ "s/" ++ parentIdentifier ++ "/settings/" ++ settingName`.  When
the Patch succeeds the id is set to exactly that string and create continues as
the read of the resource so identified: when create returns, the id is still
exactly that string unless one of the two Gets of that read reported
not-found, in which case the id is cleared and create returns no error.  When
the Patch fails create returns an error, the resource data and so its id are
unchanged, and no further call is issued; the same holds, without any call,
when the user agent cannot be generated. -/
theorem C2_create_patch_and_id (parentType : String) (env : Env) (d : ResourceData)
    (calls : List Call) :
    let id := parentType ++ "s/" ++ d.Get (parentType ++ "_id") ++ "/settings/"
                ++ d.Get "setting_name"
    let out := resourceGoogleResourceSettingsCreate parentType env d calls
    (∀ e, env.generateUserAgentString d env.userAgent = .error e →
      (∃ e1, out.ret = Ret.err e1) ∧ out.d = d ∧ out.calls = calls) ∧
    (∀ ua, env.generateUserAgentString d env.userAgent = .ok ua →
      (calls ++ [Call.Patch ua id
          { Name := id, LocalValue := some (patchLocalValue d), Metadata := none }])
        <+: out.calls ∧
      (∀ s, env.Do calls (Call.Patch ua id
            { Name := id, LocalValue := some (patchLocalValue d), Metadata := none }) = .ok s →
        out = resourceGoogleResourceSettingsRead parentType env (d.SetId id)
            (calls ++ [Call.Patch ua id
              { Name := id, LocalValue := some (patchLocalValue d), Metadata := none }]) ∧
        (out.d.id = id ∨
          (out.d.id = "" ∧ out.ret = Ret.nil ∧
            ∃ ua1 e, e.notFound = true ∧
              env.generateUserAgentString (d.SetId id) env.userAgent = .ok ua1 ∧
              (env.Do
                  (calls ++ [Call.Patch ua id
                    { Name := id, LocalValue := some (patchLocalValue d), Metadata := none }])
                  (getBasicCall ua1 id) = .error e ∨
               ∃ b,
                env.Do
                  (calls ++ [Call.Patch ua id
                    { Name := id, LocalValue := some (patchLocalValue d), Metadata := none }])
                  (getBasicCall ua1 id) = .ok b ∧
                env.Do
                  (calls ++ [Call.Patch ua id
                    { Name := id, LocalValue := some (patchLocalValue d), Metadata := none }]
                    ++ [getBasicCall ua1 id])
                  (getLocalCall ua1 id) = .error e)))) ∧
      (∀ e, env.Do calls (Call.Patch ua id
            { Name := id, LocalValue := some (patchLocalValue d), Metadata := none }) = .error e →
        (∃ e1, out.ret = Ret.err e1) ∧ out.d = d ∧
        out.calls = calls ++ [Call.Patch ua id
          { Name := id, LocalValue := some (patchLocalValue d), Metadata := none }])) := by
  intro id out
  constructor
  · intro e hua
    have hc := create_of_userAgent_error parentType env d calls e hua
    exact ⟨⟨_, congrArg Outcome.ret hc⟩, congrArg Outcome.d hc, congrArg Outcome.calls hc⟩
  · intro ua hua
    refine ⟨create_calls_extend parentType env d calls ua hua, ?_, ?_⟩
    · intro s hdo
      have hc := create_of_ok parentType env d calls ua s hua hdo
      refine ⟨hc, ?_⟩
      have hid := read_id_cases parentType env (d.SetId id)
        (calls ++ [Call.Patch ua id
          { Name := id, LocalValue := some (patchLocalValue d), Metadata := none }])
      have hc1 : out = resourceGoogleResourceSettingsRead parentType env (d.SetId id)
        (calls ++ [Call.Patch ua id
          { Name := id, LocalValue := some (patchLocalValue d), Metadata := none }]) := hc
      rw [hc1]
      exact hid
    · intro e hdo
      have hc := create_of_error parentType env d calls ua e hua hdo
      exact ⟨⟨_, congrArg Outcome.ret hc⟩, congrArg Outcome.d hc, congrArg Outcome.calls hc⟩

theorem C2_create_patch_and_id_witness :
    testEnv.generateUserAgentString testData testEnv.userAgent = .ok "tf" ∧
    ([] ++ [Call.Patch "tf" testId
        { Name := testId, LocalValue := some { zeroValue with StringValue := "1hours" },
          Metadata := none }]) <+:
      (resourceGoogleResourceSettingsCreate "organization" testEnv testData []).calls ∧
    (resourceGoogleResourceSettingsCreate "organization" testEnv testData []).d.id
      = "organizations/123456/settings/iam-serviceAccountKeyExpiry" :=
  ⟨rfl, ((C2_create_patch_and_id "organization" testEnv testData []).2 "tf" rfl).1,
   by decide⟩

/-- C3, as stated, fails: for the configuration `setting_name = "a/b"`,
`string_value = "x"` create sends the string, the basic view reports the data
type `STRING` and the local-value view returns the string under the resource's
own id, yet the setting name read back is `b`, not the configured `a/b`. -/
theorem C3_counterexample :
    slashData.local_value = [stringBlock "x"] ∧
    slashData.Get "setting_name" = "a/b" ∧
    resourceSettingsFullName "organization" (slashData.Get "organization_id")
      (slashData.Get "setting_name") = slashId ∧
    slashEnv.Do [patchCall "tf" slashId (some { zeroValue with StringValue := "x" })]
        (getBasicCall "tf" slashId)
      = .ok { Name := slashId, LocalValue := none, Metadata := some { DataType := "STRING" } } ∧
    slashEnv.Do [patchCall "tf" slashId (some { zeroValue with StringValue := "x" }),
          getBasicCall "tf" slashId]
        (getLocalCall "tf" slashId)
      = .ok { Name := slashId, LocalValue := some { zeroValue with StringValue := "x" },
              Metadata := none } ∧
    (resourceGoogleResourceSettingsCreate "organization" slashEnv slashData []).ret = Ret.nil ∧
    (resourceGoogleResourceSettingsCreate "organization" slashEnv slashData []).calls
      = [patchCall "tf" slashId (some { zeroValue with StringValue := "x" }),
         getBasicCall "tf" slashId, getLocalCall "tf" slashId] ∧
    (resourceGoogleResourceSettingsCreate "organization" slashEnv slashData []).d.id
      = slashId ∧
    (resourceGoogleResourceSettingsCreate "organization" slashEnv slashData []).d.local_value
      = [stringBlock "x"] ∧
    (resourceGoogleResourceSettingsCreate "organization" slashEnv slashData []).d.Get
      "setting_name" = "b" ∧
    (resourceGoogleResourceSettingsCreate "organization" slashEnv slashData []).d.Get
      "setting_name" ≠ slashData.Get "setting_name" :=
  ⟨by decide, by decide, by decide, rfl, rfl, by decide, by decide, by decide, by decide,
   by decide, by decide⟩

/-- C3, amended: for a non-empty string `s` and a configuration whose
`local_value` block sets only `string_value = s`, update and create send, once
the user agent is generated, a Patch whose local value has `StringValue = s` and
no other variant; and a read of the resource under the id create derives, given
a basic view with data type `STRING` and a local-value view named by that id
whose local value has `StringValue = s`, returns no error and yields
`local_value[0].string_value = s` alone, for every setting name; the setting
name it yields is the last `/`-separated segment of the configured one, which
is the configured setting name itself whenever that contains no `/`. -/
theorem C3_string_round_trip (parentType : String) (env : Env) (d : ResourceData)
    (calls : List Call) (ua s : String)
    (hs : s ≠ "")
    (hblock : d.local_value = [stringBlock s])
    (hua : env.generateUserAgentString d env.userAgent = .ok ua) :
    (resourceGoogleResourceSettingsUpdate parentType env d calls).calls
      = calls ++ [patchCall ua d.id (some { zeroValue with StringValue := s })] ∧
    (calls ++ [patchCall ua
        (resourceSettingsFullName parentType (d.Get (resourceSettingsParentKey parentType))
          (d.Get "setting_name")) (some { zeroValue with StringValue := s })])
      <+: (resourceGoogleResourceSettingsCreate parentType env d calls).calls ∧
    ∀ (r : ResourceData) (calls1 : List Call) (ua1 : String)
      (basic loc : GoogleCloudResourcesettingsV1Setting)
      (lv : GoogleCloudResourcesettingsV1Value),
      r.id = resourceSettingsFullName parentType
          (d.Get (resourceSettingsParentKey parentType)) (d.Get "setting_name") →
      env.generateUserAgentString r env.userAgent = .ok ua1 →
      env.Do calls1 (getBasicCall ua1 r.id) = .ok basic →
      basic.Metadata = some { DataType := "STRING" } →
      env.Do (calls1 ++ [getBasicCall ua1 r.id]) (getLocalCall ua1 r.id) = .ok loc →
      loc.Name = r.id →
      loc.LocalValue = some lv →
      lv.StringValue = s →
      (resourceGoogleResourceSettingsRead parentType env r calls1).ret = Ret.nil ∧
      (resourceGoogleResourceSettingsRead parentType env r calls1).calls
        = calls1 ++ [getBasicCall ua1 r.id, getLocalCall ua1 r.id] ∧
      (resourceGoogleResourceSettingsRead parentType env r calls1).d.id = r.id ∧
      (resourceGoogleResourceSettingsRead parentType env r calls1).d.local_value
        = [stringBlock s] ∧
      (resourceGoogleResourceSettingsRead parentType env r calls1).d.Get "setting_name"
        = resourceSettingsShortName ("/" ++ d.Get "setting_name") ∧
      ('/' ∉ (d.Get "setting_name").data →
        (resourceGoogleResourceSettingsRead parentType env r calls1).d.Get "setting_name"
          = d.Get "setting_name") := by
  have hlv := patchLocalValue_stringBlock d s hs hblock
  refine ⟨?_, ?_, ?_⟩
  · rw [update_calls parentType env d calls ua hua, hlv]
  · have h := create_calls_extend parentType env d calls ua hua
    rw [hlv] at h
    exact h
  · intro r calls1 ua1 basic loc lv hid hua1 hb hmd hl hn hlv1 hsv
    rw [read_of_replies parentType env r calls1 ua1 basic loc hua1 hb hl]
    have hblk : readLocalValue basic loc = some (stringBlock s) := by
      simp [readLocalValue, hlv1, hmd, hsv, stringBlock]
    rw [hblk]
    refine ⟨rfl, rfl, rfl, rfl, ?_, ?_⟩
    · simp only [ResourceData.Get, ResourceData.SetLocalValue, ResourceData.Set, if_true]
      rw [hn, hid]
      exact shortName_fullName_segment parentType _ _
    · intro hname
      simp only [ResourceData.Get, ResourceData.SetLocalValue, ResourceData.Set, if_true]
      rw [hn, hid]
      exact shortName_fullName parentType _ _ hname

theorem C3_string_round_trip_witness :
    "1hours" ≠ "" ∧
    testData.local_value = [stringBlock "1hours"] ∧
    '/' ∉ (testData.Get "setting_name").data ∧
    testEnv.generateUserAgentString testData testEnv.userAgent = .ok "tf" ∧
    (resourceGoogleResourceSettingsUpdate "organization" testEnv testData []).calls
      = [] ++ [patchCall "tf" testData.id (some { zeroValue with StringValue := "1hours" })] ∧
    (resourceGoogleResourceSettingsRead "organization" testEnv createdData []).d.local_value
      = [stringBlock "1hours"] ∧
    (resourceGoogleResourceSettingsRead "organization" testEnv createdData []).d.Get
      "setting_name" = testData.Get "setting_name" :=
  ⟨by decide, rfl, by decide, rfl,
   (C3_string_round_trip "organization" testEnv testData [] "tf" "1hours"
      (by decide) rfl rfl).1,
   ((C3_string_round_trip "organization" testEnv testData [] "tf" "1hours"
      (by decide) rfl rfl).2.2 createdData [] "tf"
      (sampleSetting testId (some "STRING") none)
      (sampleSetting testId none (some { zeroValue with StringValue := "1hours" }))
      { zeroValue with StringValue := "1hours" }
      (by decide) rfl rfl rfl rfl rfl rfl rfl).2.2.2.1,
   ((C3_string_round_trip "organization" testEnv testData [] "tf" "1hours"
      (by decide) rfl rfl).2.2 createdData [] "tf"
      (sampleSetting testId (some "STRING") none)
      (sampleSetting testId none (some { zeroValue with StringValue := "1hours" }))
      { zeroValue with StringValue := "1hours" }
      (by decide) rfl rfl rfl rfl rfl rfl rfl).2.2.2.2.2 (by decide)⟩

/-- C4, as stated, fails: a read whose basic view reports the data type
`STRING_SET` and whose local-value view carries a local value that is not null
succeeds and populates none of the four keys. -/
theorem C4_counterexample :
    stringSetEnv.Do [] (getBasicCall "tf" createdData.id)
      = .ok { Name := testId, LocalValue := none,
              Metadata := some { DataType := "STRING_SET" } } ∧
    stringSetEnv.Do [getBasicCall "tf" createdData.id] (getLocalCall "tf" createdData.id)
      = .ok { Name := testId, LocalValue := some zeroValue, Metadata := none } ∧
    (resourceGoogleResourceSettingsRead "organization" stringSetEnv createdData []).ret
      = Ret.nil ∧
    (resourceGoogleResourceSettingsRead "organization" stringSetEnv createdData []).calls
      = [getBasicCall "tf" testId, getLocalCall "tf" testId] ∧
    (resourceGoogleResourceSettingsRead "organization" stringSetEnv createdData []
      ).d.local_value = [emptyBlock] ∧
    (resourceGoogleResourceSettingsRead "organization" stringSetEnv createdData []
      ).d.local_value.map populatedKeys = [[]] :=
  ⟨rfl, rfl, by decide, by decide, by decide, by decide⟩

/-- C4, amended: a read whose two Gets succeed and that returns no error leaves
one `local_value` block with at most one of the four keys populated.  When the
local value is null none is populated.  When it is not null the populated key
is the one corresponding to the metadata data type, holding that variant's
value, for `BOOLEAN`, `STRING`, `ENUM_VALUE` and `DURATION_VALUE`; for any
other data type (`STRING_SET` and `STRING_MAP` among them) none is populated. -/
theorem C4_read_populates_at_most_one (parentType : String) (env : Env) (d : ResourceData)
    (calls : List Call) (ua : String) (b l : GoogleCloudResourcesettingsV1Setting)
    (hua : env.generateUserAgentString d env.userAgent = .ok ua)
    (hb : env.Do calls (getBasicCall ua d.id) = .ok b)
    (hl : env.Do (calls ++ [getBasicCall ua d.id]) (getLocalCall ua d.id) = .ok l)
    (hret : (resourceGoogleResourceSettingsRead parentType env d calls).ret = Ret.nil) :
    ∃ block,
      (resourceGoogleResourceSettingsRead parentType env d calls).d.local_value = [block] ∧
      (populatedKeys block).length ≤ 1 ∧
      (l.LocalValue = none → populatedKeys block = []) ∧
      (∀ lv md, l.LocalValue = some lv → b.Metadata = some md →
        populatedKeys block = (keyOfDataType md.DataType).toList ∧
        (∀ v, block.boolean_value = some v → v = lv.BooleanValue) ∧
        (∀ v, block.string_value = some v → v = lv.StringValue) ∧
        (∀ v, block.enum_value = some v → lv.EnumValue = some { Value := v }) ∧
        (∀ v, block.duration_value = some v → v = lv.DurationValue)) := by
  rw [read_of_replies parentType env d calls ua b l hua hb hl] at hret ⊢
  cases hblk : readLocalValue b l with
  | none =>
    rw [hblk] at hret
    cases hret
  | some block =>
    obtain ⟨h1, h2, h3⟩ := readLocalValue_some b l block hblk
    refine ⟨block, rfl, h1, ?_, h3⟩
    intro hn
    rw [h2 hn]
    rfl

theorem C4_read_populates_at_most_one_witness :
    testEnv.generateUserAgentString createdData testEnv.userAgent = .ok "tf" ∧
    (resourceGoogleResourceSettingsRead "organization" testEnv createdData []).ret = Ret.nil ∧
    ∃ block,
      (resourceGoogleResourceSettingsRead "organization" testEnv createdData []).d.local_value
        = [block] ∧
      (populatedKeys block).length ≤ 1 :=
  ⟨rfl, by decide,
   (C4_read_populates_at_most_one "organization" testEnv createdData [] "tf"
      (sampleSetting testId (some "STRING") none)
      (sampleSetting testId none (some { zeroValue with StringValue := "1hours" }))
      rfl rfl rfl (by decide)).imp fun _ h => ⟨h.1, h.2.1⟩⟩

/-- C5: delete issues a Patch whose body is named by the resource id and has a
null local value, whatever the `local_value` block configures; and a read whose
local-value view carries a null local value returns no error and leaves a
`local_value` block with none of the four keys populated, whatever the data
type reported by the basic view. -/
theorem C5_delete_then_read_null (parentType : String) (env : Env) (d : ResourceData)
    (calls : List Call) (ua : String)
    (hua : env.generateUserAgentString d env.userAgent = .ok ua) :
    (resourceGoogleResourceSettingsDelete parentType env d calls).calls
      = calls ++ [Call.Patch ua d.id { Name := d.id, LocalValue := none, Metadata := none }] ∧
    ∀ (calls1 : List Call) (b l : GoogleCloudResourcesettingsV1Setting),
      env.Do calls1 (getBasicCall ua d.id) = .ok b →
      env.Do (calls1 ++ [getBasicCall ua d.id]) (getLocalCall ua d.id) = .ok l →
      l.LocalValue = none →
      (resourceGoogleResourceSettingsRead parentType env d calls1).ret = Ret.nil ∧
      (resourceGoogleResourceSettingsRead parentType env d calls1).d.local_value
        = [emptyBlock] ∧
      (resourceGoogleResourceSettingsRead parentType env d calls1).d.local_value.map
        populatedKeys = [[]] := by
  refine ⟨delete_calls parentType env d calls ua hua, ?_⟩
  intro calls1 b l hb hl hn
  rw [read_of_replies parentType env d calls1 ua b l hua hb hl]
  have hblk : readLocalValue b l = some emptyBlock := by
    simp [readLocalValue, hn]
  rw [hblk]
  exact ⟨rfl, rfl, rfl⟩

theorem C5_delete_then_read_null_witness :
    unsetEnv.generateUserAgentString createdData unsetEnv.userAgent = .ok "tf" ∧
    (resourceGoogleResourceSettingsDelete "organization" unsetEnv createdData []).calls
      = [] ++ [Call.Patch "tf" testId { Name := testId, LocalValue := none, Metadata := none }] ∧
    (resourceGoogleResourceSettingsRead "organization" unsetEnv createdData
      [patchCall "tf" testId none]).d.local_value = [emptyBlock] :=
  ⟨rfl,
   (C5_delete_then_read_null "organization" unsetEnv createdData [] "tf" rfl).1,
   ((C5_delete_then_read_null "organization" unsetEnv createdData [] "tf" rfl).2
      [patchCall "tf" testId none]
      (sampleSetting testId (some "STRING") none) (sampleSetting testId none none)
      rfl rfl rfl).2.1⟩

/-- C6: a read whose Get of the basic view reports not-found returns no error,
clears the id, does not issue the second Get and writes neither `setting_name`
nor `local_value`; a read whose Get of the local-value view reports not-found
returns no error and clears the id as well. -/
theorem C6_read_not_found_is_absent (parentType : String) (env : Env) (d : ResourceData)
    (calls : List Call) (ua : String) (e : GoError)
    (hua : env.generateUserAgentString d env.userAgent = .ok ua)
    (hnf : e.notFound = true) :
    (env.Do calls (getBasicCall ua d.id) = .error e →
      (resourceGoogleResourceSettingsRead parentType env d calls).ret = Ret.nil ∧
      (resourceGoogleResourceSettingsRead parentType env d calls).d.id = "" ∧
      (resourceGoogleResourceSettingsRead parentType env d calls).calls
        = calls ++ [getBasicCall ua d.id] ∧
      (resourceGoogleResourceSettingsRead parentType env d calls).d.attrs = d.attrs ∧
      (resourceGoogleResourceSettingsRead parentType env d calls).d.local_value
        = d.local_value) ∧
    (∀ b, env.Do calls (getBasicCall ua d.id) = .ok b →
      env.Do (calls ++ [getBasicCall ua d.id]) (getLocalCall ua d.id) = .error e →
      (resourceGoogleResourceSettingsRead parentType env d calls).ret = Ret.nil ∧
      (resourceGoogleResourceSettingsRead parentType env d calls).d.id = "" ∧
      (resourceGoogleResourceSettingsRead parentType env d calls).calls
        = calls ++ [getBasicCall ua d.id, getLocalCall ua d.id] ∧
      (resourceGoogleResourceSettingsRead parentType env d calls).d.attrs = d.attrs ∧
      (resourceGoogleResourceSettingsRead parentType env d calls).d.local_value
        = d.local_value) := by
  constructor
  · intro hb
    rw [read_of_basic_error parentType env d calls ua e hua hb]
    simp [handleNotFoundError, hnf, ResourceData.SetId]
  · intro b hb hl
    rw [read_of_local_error parentType env d calls ua b e hua hb hl]
    simp [handleNotFoundError, hnf, ResourceData.SetId]

theorem C6_read_not_found_is_absent_witness :
    failingEnv.generateUserAgentString createdData failingEnv.userAgent = .ok "tf" ∧
    gone.notFound = true ∧
    failingEnv.Do [] (getBasicCall "tf" createdData.id) = .error gone ∧
    (resourceGoogleResourceSettingsRead "organization" failingEnv createdData []).ret
      = Ret.nil ∧
    (resourceGoogleResourceSettingsRead "organization" failingEnv createdData []).d.id = "" ∧
    halfGoneEnv.Do [getBasicCall "tf" createdData.id] (getLocalCall "tf" createdData.id)
      = .error gone ∧
    (resourceGoogleResourceSettingsRead "organization" halfGoneEnv createdData []).ret
      = Ret.nil ∧
    (resourceGoogleResourceSettingsRead "organization" halfGoneEnv createdData []).d.id = "" :=
  ⟨rfl, rfl, rfl,
   ((C6_read_not_found_is_absent "organization" failingEnv createdData [] "tf" gone
      rfl rfl).1 rfl).1,
   ((C6_read_not_found_is_absent "organization" failingEnv createdData [] "tf" gone
      rfl rfl).1 rfl).2.1,
   rfl,
   ((C6_read_not_found_is_absent "organization" halfGoneEnv createdData [] "tf" gone
      rfl rfl).2 (sampleSetting testId (some "STRING") none) rfl rfl).1,
   ((C6_read_not_found_is_absent "organization" halfGoneEnv createdData [] "tf" gone
      rfl rfl).2 (sampleSetting testId (some "STRING") none) rfl rfl).2.1⟩

/-- C7, as stated, fails: when the Patch of an update fails with the message
`boom`, the message update returns is `Error updating: patching: boom`, not
`Error updating: ` followed by `boom`. -/
theorem C7_counterexample :
    failingEnv.Do [] (patchCall "tf" createdData.id (some (patchLocalValue createdData)))
      = .error boom ∧
    (resourceGoogleResourceSettingsUpdate "organization" failingEnv createdData []).ret
      = Ret.err { msg := "Error updating: patching: boom", notFound := false } ∧
    "Error updating: patching: boom" ≠ "Error updating: " ++ boom.msg :=
  ⟨rfl, by decide, by decide⟩

/-- C7, amended: when the Patch call returns a remote error, create, update and
delete each return an error whose message is the operation's own text
(`Error creating: `, `Error updating: `, `Error deleting: `), then `patching: `,
then the remote error's message unmodified.  When the user agent cannot be
generated no call is issued, so no Patch, and each returns that error under
the operation's own text.  Otherwise each issues its Patch; update and delete
return no error exactly when that Patch returns none, create exactly when that
Patch returns none and the read that follows returns none. -/
theorem C7_errors_wrapped (parentType : String) (env : Env) (d : ResourceData)
    (calls : List Call) :
    (∀ e, env.generateUserAgentString d env.userAgent = .error e →
      resourceGoogleResourceSettingsCreate parentType env d calls
        = { d := d, calls := calls,
            ret := Ret.err { msg := "Error creating: " ++ e.msg, notFound := false } } ∧
      resourceGoogleResourceSettingsUpdate parentType env d calls
        = { d := d, calls := calls,
            ret := Ret.err { msg := "Error updating: " ++ e.msg, notFound := false } } ∧
      resourceGoogleResourceSettingsDelete parentType env d calls
        = { d := d, calls := calls,
            ret := Ret.err { msg := "Error deleting: " ++ e.msg, notFound := false } }) ∧
    (∀ ua, env.generateUserAgentString d env.userAgent = .ok ua →
      ((calls ++ [patchCall ua
            (resourceSettingsFullName parentType (d.Get (resourceSettingsParentKey parentType))
              (d.Get "setting_name")) (some (patchLocalValue d))])
          <+: (resourceGoogleResourceSettingsCreate parentType env d calls).calls ∧
        (resourceGoogleResourceSettingsUpdate parentType env d calls).calls
          = calls ++ [patchCall ua d.id (some (patchLocalValue d))] ∧
        (resourceGoogleResourceSettingsDelete parentType env d calls).calls
          = calls ++ [patchCall ua d.id none]) ∧
      (∀ e, env.Do calls (patchCall ua
            (resourceSettingsFullName parentType (d.Get (resourceSettingsParentKey parentType))
              (d.Get "setting_name")) (some (patchLocalValue d))) = .error e →
        (resourceGoogleResourceSettingsCreate parentType env d calls).ret
          = Ret.err { msg := "Error creating: patching: " ++ e.msg, notFound := false }) ∧
      (∀ e, env.Do calls (patchCall ua d.id (some (patchLocalValue d))) = .error e →
        (resourceGoogleResourceSettingsUpdate parentType env d calls).ret
          = Ret.err { msg := "Error updating: patching: " ++ e.msg, notFound := false }) ∧
      (∀ e, env.Do calls (patchCall ua d.id none) = .error e →
        (resourceGoogleResourceSettingsDelete parentType env d calls).ret
          = Ret.err { msg := "Error deleting: patching: " ++ e.msg, notFound := false }) ∧
      ((resourceGoogleResourceSettingsCreate parentType env d calls).ret = Ret.nil ↔
        (∃ s, env.Do calls (patchCall ua
            (resourceSettingsFullName parentType (d.Get (resourceSettingsParentKey parentType))
              (d.Get "setting_name")) (some (patchLocalValue d))) = .ok s) ∧
        (resourceGoogleResourceSettingsRead parentType env
          (d.SetId (resourceSettingsFullName parentType
            (d.Get (resourceSettingsParentKey parentType)) (d.Get "setting_name")))
          (calls ++ [patchCall ua
            (resourceSettingsFullName parentType (d.Get (resourceSettingsParentKey parentType))
              (d.Get "setting_name")) (some (patchLocalValue d))])).ret = Ret.nil) ∧
      ((resourceGoogleResourceSettingsUpdate parentType env d calls).ret = Ret.nil ↔
        ∃ s, env.Do calls (patchCall ua d.id (some (patchLocalValue d))) = .ok s) ∧
      ((resourceGoogleResourceSettingsDelete parentType env d calls).ret = Ret.nil ↔
        ∃ s, env.Do calls (patchCall ua d.id none) = .ok s)) := by
  constructor
  · intro e hua
    rw [create_of_userAgent_error parentType env d calls e hua,
      update_of_userAgent_error parentType env d calls e hua,
      delete_of_userAgent_error parentType env d calls e hua]
    exact ⟨rfl, rfl, rfl⟩
  · intro ua hua
    refine ⟨⟨create_calls_extend parentType env d calls ua hua,
      update_calls parentType env d calls ua hua,
      delete_calls parentType env d calls ua hua⟩, ?_, ?_, ?_, ?_, ?_, ?_⟩
    · intro e hdo
      rw [create_of_error parentType env d calls ua e hua hdo, fmtErrorf_patching]
      rfl
    · intro e hdo
      rw [update_of_error parentType env d calls ua e hua hdo, fmtErrorf_patching]
      rfl
    · intro e hdo
      rw [delete_of_error parentType env d calls ua e hua hdo, fmtErrorf_patching]
      rfl
    · cases hdo : env.Do calls (patchCall ua
            (resourceSettingsFullName parentType (d.Get (resourceSettingsParentKey parentType))
              (d.Get "setting_name")) (some (patchLocalValue d))) with
      | error e =>
        rw [create_of_error parentType env d calls ua e hua hdo]
        simp
      | ok s =>
        rw [create_of_ok parentType env d calls ua s hua hdo]
        simp
    · cases hdo : env.Do calls (patchCall ua d.id (some (patchLocalValue d))) with
      | error e =>
        rw [update_of_error parentType env d calls ua e hua hdo]
        simp
      | ok s =>
        rw [update_of_ok parentType env d calls ua s hua hdo]
        simp
    · cases hdo : env.Do calls (patchCall ua d.id none) with
      | error e =>
        rw [delete_of_error parentType env d calls ua e hua hdo]
        simp
      | ok s =>
        rw [delete_of_ok parentType env d calls ua s hua hdo]
        simp

theorem C7_errors_wrapped_witness :
    failingEnv.generateUserAgentString createdData failingEnv.userAgent = .ok "tf" ∧
    failingEnv.Do [] (patchCall "tf" createdData.id none) = .error boom ∧
    (resourceGoogleResourceSettingsDelete "organization" failingEnv createdData []).calls
      = [] ++ [patchCall "tf" createdData.id none] ∧
    (resourceGoogleResourceSettingsDelete "organization" failingEnv createdData []).ret
      = Ret.err { msg := "Error deleting: patching: " ++ boom.msg, notFound := false } :=
  ⟨rfl, rfl,
   ((C7_errors_wrapped "organization" failingEnv createdData []).2 "tf" rfl).1.2.2,
   ((C7_errors_wrapped "organization" failingEnv createdData []).2 "tf" rfl).2.2.2.1 boom rfl⟩

/-- C8, evaluated at the configuration `local_value { boolean_value = false }`:
the block configures one field, yet update and create send a Patch whose local
value is not null and has none of its variants set, where the claim requires
exactly one; the read, by contrast, does write `boolean_value = false` when
the service reports a boolean setting whose local value is `false`. -/
theorem C8_false_boolean_sends_no_variant :
    falseData.local_value = [{ emptyBlock with boolean_value := some false }] ∧
    populatedKeys falseData.block0 = ["boolean_value"] ∧
    patchLocalValue falseData = zeroValue ∧
    variantsSet (patchLocalValue falseData) = 0 ∧
    (resourceGoogleResourceSettingsUpdate "organization" testEnv falseData []).calls
      = [patchCall "tf" testId (some zeroValue)] ∧
    (resourceGoogleResourceSettingsUpdate "organization" testEnv falseData []).ret
      = Ret.nil ∧
    (resourceGoogleResourceSettingsCreate "organization" testEnv falseData []).calls.head?
      = some (patchCall "tf" testId (some zeroValue)) ∧
    (resourceGoogleResourceSettingsRead "organization" booleanFalseEnv createdData []
      ).d.local_value = [{ emptyBlock with boolean_value := some false }] := by
  decide

/-- C9, as stated, fails: the create of the acceptance test, whose Patch and
Gets all succeed, issues three remote calls, not one. -/
theorem C9_counterexample :
    (resourceGoogleResourceSettingsCreate "organization" testEnv testData []).ret = Ret.nil ∧
    (resourceGoogleResourceSettingsCreate "organization" testEnv testData []).calls
      = [patchCall "tf" testId (some { zeroValue with StringValue := "1hours" }),
         getBasicCall "tf" testId, getLocalCall "tf" testId] ∧
    (resourceGoogleResourceSettingsCreate "organization" testEnv testData []).calls.length
      = 3 := by
  decide

/-- C9, amended: when the user agent cannot be generated an operation issues no
call and returns an error.  Otherwise update and delete issue exactly one call,
a Patch, and return an error when it fails; create issues that one Patch, stops
with an error when it fails, and when it succeeds continues as the read of the
resource under its new id, so that a create whose Patch and two Gets succeed
issues three calls; a read stops after its first Get when that fails, and
otherwise issues exactly two calls, a Get per view. -/
theorem C9_calls_per_operation (parentType : String) (env : Env) (d : ResourceData)
    (calls : List Call) :
    (∀ e, env.generateUserAgentString d env.userAgent = .error e →
      resourceGoogleResourceSettingsCreate parentType env d calls
        = { d := d, calls := calls, ret := Ret.err (fmtErrorf "Error creating: " e) } ∧
      resourceGoogleResourceSettingsUpdate parentType env d calls
        = { d := d, calls := calls, ret := Ret.err (fmtErrorf "Error updating: " e) } ∧
      resourceGoogleResourceSettingsDelete parentType env d calls
        = { d := d, calls := calls, ret := Ret.err (fmtErrorf "Error deleting: " e) } ∧
      resourceGoogleResourceSettingsRead parentType env d calls
        = { d := d, calls := calls, ret := Ret.err e }) ∧
    (∀ ua, env.generateUserAgentString d env.userAgent = .ok ua →
      ((resourceGoogleResourceSettingsUpdate parentType env d calls).calls
          = calls ++ [patchCall ua d.id (some (patchLocalValue d))] ∧
        ∀ e, env.Do calls (patchCall ua d.id (some (patchLocalValue d))) = .error e →
          ∃ e1, (resourceGoogleResourceSettingsUpdate parentType env d calls).ret
            = Ret.err e1) ∧
      ((resourceGoogleResourceSettingsDelete parentType env d calls).calls
          = calls ++ [patchCall ua d.id none] ∧
        ∀ e, env.Do calls (patchCall ua d.id none) = .error e →
          ∃ e1, (resourceGoogleResourceSettingsDelete parentType env d calls).ret
            = Ret.err e1) ∧
      (∀ e, env.Do calls (patchCall ua
            (resourceSettingsFullName parentType (d.Get (resourceSettingsParentKey parentType))
              (d.Get "setting_name")) (some (patchLocalValue d))) = .error e →
        (resourceGoogleResourceSettingsCreate parentType env d calls).calls
          = calls ++ [patchCall ua
              (resourceSettingsFullName parentType
                (d.Get (resourceSettingsParentKey parentType)) (d.Get "setting_name"))
              (some (patchLocalValue d))] ∧
        ∃ e1, (resourceGoogleResourceSettingsCreate parentType env d calls).ret
          = Ret.err e1) ∧
      (∀ s, env.Do calls (patchCall ua
            (resourceSettingsFullName parentType (d.Get (resourceSettingsParentKey parentType))
              (d.Get "setting_name")) (some (patchLocalValue d))) = .ok s →
        resourceGoogleResourceSettingsCreate parentType env d calls
          = resourceGoogleResourceSettingsRead parentType env
              (d.SetId (resourceSettingsFullName parentType
                (d.Get (resourceSettingsParentKey parentType)) (d.Get "setting_name")))
              (calls ++ [patchCall ua
                (resourceSettingsFullName parentType
                  (d.Get (resourceSettingsParentKey parentType)) (d.Get "setting_name"))
                (some (patchLocalValue d))])) ∧
      (∀ e, env.Do calls (getBasicCall ua d.id) = .error e →
        (resourceGoogleResourceSettingsRead parentType env d calls).calls
          = calls ++ [getBasicCall ua d.id] ∧
        (e.notFound = false →
          ∃ e1, (resourceGoogleResourceSettingsRead parentType env d calls).ret
            = Ret.err e1)) ∧
      (∀ b, env.Do calls (getBasicCall ua d.id) = .ok b →
        (resourceGoogleResourceSettingsRead parentType env d calls).calls
          = calls ++ [getBasicCall ua d.id, getLocalCall ua d.id] ∧
        ∀ e, env.Do (calls ++ [getBasicCall ua d.id]) (getLocalCall ua d.id) = .error e →
          e.notFound = false →
          ∃ e1, (resourceGoogleResourceSettingsRead parentType env d calls).ret
            = Ret.err e1) ∧
      (∀ s ua1 b,
        env.Do calls (patchCall ua
            (resourceSettingsFullName parentType (d.Get (resourceSettingsParentKey parentType))
              (d.Get "setting_name")) (some (patchLocalValue d))) = .ok s →
        env.generateUserAgentString
            (d.SetId (resourceSettingsFullName parentType
              (d.Get (resourceSettingsParentKey parentType)) (d.Get "setting_name")))
            env.userAgent = .ok ua1 →
        env.Do
            (calls ++ [patchCall ua
              (resourceSettingsFullName parentType
                (d.Get (resourceSettingsParentKey parentType)) (d.Get "setting_name"))
              (some (patchLocalValue d))])
            (getBasicCall ua1 (resourceSettingsFullName parentType
              (d.Get (resourceSettingsParentKey parentType)) (d.Get "setting_name"))) = .ok b →
        (resourceGoogleResourceSettingsCreate parentType env d calls).calls
          = calls ++
            [ patchCall ua
                (resourceSettingsFullName parentType
                  (d.Get (resourceSettingsParentKey parentType)) (d.Get "setting_name"))
                (some (patchLocalValue d)),
              getBasicCall ua1 (resourceSettingsFullName parentType
                (d.Get (resourceSettingsParentKey parentType)) (d.Get "setting_name")),
              getLocalCall ua1 (resourceSettingsFullName parentType
                (d.Get (resourceSettingsParentKey parentType)) (d.Get "setting_name")) ])) := by
  constructor
  · intro e hua
    exact ⟨create_of_userAgent_error parentType env d calls e hua,
      update_of_userAgent_error parentType env d calls e hua,
      delete_of_userAgent_error parentType env d calls e hua,
      read_of_userAgent_error parentType env d calls e hua⟩
  · intro ua hua
    refine ⟨⟨update_calls parentType env d calls ua hua, ?_⟩,
      ⟨delete_calls parentType env d calls ua hua, ?_⟩, ?_, ?_, ?_, ?_, ?_⟩
    · intro e hdo
      rw [update_of_error parentType env d calls ua e hua hdo]
      exact ⟨_, rfl⟩
    · intro e hdo
      rw [delete_of_error parentType env d calls ua e hua hdo]
      exact ⟨_, rfl⟩
    · intro e hdo
      rw [create_of_error parentType env d calls ua e hua hdo]
      exact ⟨rfl, _, rfl⟩
    · intro s hdo
      exact create_of_ok parentType env d calls ua s hua hdo
    · intro e hb
      rw [read_of_basic_error parentType env d calls ua e hua hb]
      refine ⟨rfl, ?_⟩
      intro hnf
      simp [handleNotFoundError, hnf]
    · intro b hb
      refine ⟨read_calls_of_basic_ok parentType env d calls ua b hua hb, ?_⟩
      intro e hl hnf
      rw [read_of_local_error parentType env d calls ua b e hua hb hl]
      simp [handleNotFoundError, hnf]
    · intro s ua1 b hdo hua1 hb
      rw [create_of_ok parentType env d calls ua s hua hdo,
        read_calls_of_basic_ok parentType env _ _ ua1 b hua1 hb]
      simp [ResourceData.SetId]

theorem C9_calls_per_operation_witness :
    testEnv.generateUserAgentString createdData testEnv.userAgent = .ok "tf" ∧
    testEnv.Do [] (getBasicCall "tf" createdData.id)
      = .ok (sampleSetting testId (some "STRING") none) ∧
    (resourceGoogleResourceSettingsDelete "organization" testEnv createdData []).calls
      = [] ++ [patchCall "tf" createdData.id none] ∧
    (resourceGoogleResourceSettingsRead "organization" testEnv createdData []).calls
      = [] ++ [getBasicCall "tf" createdData.id, getLocalCall "tf" createdData.id] :=
  ⟨rfl, rfl,
   ((C9_calls_per_operation "organization" testEnv createdData []).2 "tf" rfl).2.1.1,
   (((C9_calls_per_operation "organization" testEnv createdData []).2 "tf" rfl).2.2.2.2.2.1
      (sampleSetting testId (some "STRING") none) rfl).1⟩

/-- C10: the local value that update and create send is the one the rule
"first non-empty field wins" prescribes: the first field, in the order
`boolean_value`, `string_value`, `enum_value`, `duration_value`, whose
configured value is not the zero value of its type supplies the variant that
is set, with its value, and every later field is ignored; so at most one
variant is set. -/
theorem C10_first_non_empty_field_wins (parentType : String) (env : Env) (d : ResourceData)
    (calls : List Call) (ua : String)
    (hua : env.generateUserAgentString d env.userAgent = .ok ua) :
    (resourceGoogleResourceSettingsUpdate parentType env d calls).calls
      = calls ++ [patchCall ua d.id (some (firstNonEmptyFieldWins d.block0))] ∧
    (calls ++ [patchCall ua
        (resourceSettingsFullName parentType (d.Get (resourceSettingsParentKey parentType))
          (d.Get "setting_name")) (some (firstNonEmptyFieldWins d.block0))])
      <+: (resourceGoogleResourceSettingsCreate parentType env d calls).calls ∧
    variantsSet (firstNonEmptyFieldWins d.block0) ≤ 1 := by
  refine ⟨?_, ?_, (variantsSet_first d.block0).1⟩
  · rw [← patchLocalValue_eq_first]
    exact update_calls parentType env d calls ua hua
  · rw [← patchLocalValue_eq_first]
    exact create_calls_extend parentType env d calls ua hua

theorem C10_first_non_empty_field_wins_witness :
    testEnv.generateUserAgentString crowdedData testEnv.userAgent = .ok "tf" ∧
    firstNonEmptyFieldWins crowdedData.block0 = { zeroValue with StringValue := "s" } ∧
    (resourceGoogleResourceSettingsUpdate "organization" testEnv crowdedData []).calls
      = [] ++ [patchCall "tf" crowdedData.id (some (firstNonEmptyFieldWins crowdedData.block0))] :=
  ⟨rfl, by decide,
   (C10_first_non_empty_field_wins "organization" testEnv crowdedData [] "tf" rfl).1⟩

/-! ## Evaluations on concrete inputs -/

theorem fullName_of_test :
    resourceSettingsFullName "organization" "123456" "iam-serviceAccountKeyExpiry"
      = "organizations/123456/settings/iam-serviceAccountKeyExpiry" := by
  decide

theorem shortName_of_nested : resourceSettingsShortName "organizations/1/settings/a/b" = "b" := by
  decide

theorem split_of_empty : stringsSplitSlash "" = [""] := by
  decide

theorem split_of_slashes : stringsSplitSlash "/a//" = ["", "a", "", ""] := by
  decide

/-- The acceptance test end to end: create sends the string and the resource
read back carries the configured setting name and `string_value = "1hours"`. -/
theorem acceptance_test_create :
    (resourceGoogleResourceSettingsCreate "organization" testEnv testData []).ret = Ret.nil ∧
    (resourceGoogleResourceSettingsCreate "organization" testEnv testData []).d.id = testId ∧
    (resourceGoogleResourceSettingsCreate "organization" testEnv testData []).d.Get
      "setting_name" = "iam-serviceAccountKeyExpiry" ∧
    (resourceGoogleResourceSettingsCreate "organization" testEnv testData []).d.local_value
      = [stringBlock "1hours"] := by
  decide

/-- A read that dereferences a nil `EnumValue` panics. -/
theorem read_enum_without_value_panics :
    (resourceGoogleResourceSettingsRead "organization"
      (sampleEnv (.ok (sampleSetting testId none none))
        (.ok (sampleSetting testId (some "ENUM_VALUE") none))
        (.ok (sampleSetting testId none (some zeroValue))))
      createdData []).ret = Ret.panic := by
  decide

end ResourceSettings
